import Mathlib

/-!
Verification of the rust-sftp protocol core.

Bytes on the wire are modelled as `Fin 256`, buffers as `List Byte`.
Rust `Result<T, Error>` is modelled as `Except Error T`; machine integers
(`u32`, `u64`) read off the wire are modelled as `Nat` (a decoded value is
always below `2 ^ 32` resp. `2 ^ 64` because it is assembled from 4 resp. 8
octets).  Each `TryFrom<&[u8]>` implementation under `src/` becomes a Lean
function of the same name.
-/

deriving instance DecidableEq for Except

namespace Dray

/-- A single octet on the wire. -/
abbrev Byte := Fin 256

/-- Error kinds of the crate (src/error.rs): the variants used by the code
under src are BadMessage, Unimplemented and Failure; NoSuchHandle and
StorageFailure complete the spec's error taxonomy (spec section 7). -/
inductive Error where
  | badMessage
  | unimplemented
  | failure
  | noSuchHandle
  | storageFailure
deriving DecidableEq

/-- Modelled from the spec: src/try_buf.rs (the TryBuf helper trait used by
every decoder under src) is not under src.  Per spec section 4.1 any attempt
to read past the buffer boundary yields BadMessage; `try_get_u8` consumes the
first octet.  The behaviour is corroborated by the decoder unit tests in
src (init.rs: empty buffer gives BadMessage). -/
def try_get_u8 : List Byte → Except Error (Byte × List Byte)
  | [] => .error .badMessage
  | b :: rest => .ok (b, rest)

/-- Value of a 4-octet big-endian unsigned integer. -/
def u32val (b0 b1 b2 b3 : Byte) : Nat :=
  ((b0.val * 256 + b1.val) * 256 + b2.val) * 256 + b3.val

/-- Value of an 8-octet big-endian unsigned integer. -/
def u64val (b0 b1 b2 b3 b4 b5 b6 b7 : Byte) : Nat :=
  ((((((b0.val * 256 + b1.val) * 256 + b2.val) * 256 + b3.val) * 256 + b4.val)
      * 256 + b5.val) * 256 + b6.val) * 256 + b7.val

/-- Modelled from the spec: src/try_buf.rs is not under src.  `try_get_u32`
consumes a 4-octet big-endian integer (spec section 6), failing with
BadMessage on a shorter buffer; corroborated by the tests in src
(write.rs: a 1-byte id gives BadMessage). -/
def try_get_u32 : List Byte → Except Error (Nat × List Byte)
  | b0 :: b1 :: b2 :: b3 :: rest => .ok (u32val b0 b1 b2 b3, rest)
  | _ => .error .badMessage

/-- Modelled from the spec: src/try_buf.rs is not under src.  `try_get_u64`
consumes an 8-octet big-endian integer, failing with BadMessage on a shorter
buffer; corroborated by the tests in src (write.rs: a 1-byte offset gives
BadMessage). -/
def try_get_u64 : List Byte → Except Error (Nat × List Byte)
  | b0 :: b1 :: b2 :: b3 :: b4 :: b5 :: b6 :: b7 :: rest =>
      .ok (u64val b0 b1 b2 b3 b4 b5 b6 b7, rest)
  | _ => .error .badMessage

/-- Modelled from the spec: src/try_buf.rs is not under src.  `try_get_bytes`
consumes exactly `n` octets, failing with BadMessage when fewer remain;
corroborated by the tests in src (write.rs: a declared data length larger
than the remainder gives BadMessage). -/
def try_get_bytes (n : Nat) (bs : List Byte) : Except Error (List Byte × List Byte) :=
  if n ≤ bs.length then .ok (bs.take n, bs.drop n) else .error .badMessage

/-- Modelled from the spec: src/try_buf.rs is not under src.  A string is a
4-octet big-endian length prefix followed by that many octets (spec section
6: strings are opaque byte sequences), so it is modelled as `List Byte`;
a truncated prefix or body fails with BadMessage. -/
def try_get_string (bs : List Byte) : Except Error (List Byte × List Byte) :=
  Except.bind (try_get_u32 bs) fun p => try_get_bytes p.1 p.2

/-- SFTP Init request payload (src/protocol/request/init.rs): a single
protocol-version octet. -/
structure Init where
  version : Byte
deriving DecidableEq

/-- Decoder of Init (src/protocol/request/init.rs, `Init::try_from`): reads
the version from the first octet and ignores the rest. -/
def Init.try_from (init_bytes : List Byte) : Except Error Init :=
  Except.bind (try_get_u8 init_bytes) fun p => .ok ⟨p.1⟩

/-- SFTP Handle request payload (src/protocol/request/handle.rs). -/
structure Handle where
  id : Nat
  handle : List Byte
deriving DecidableEq

/-- Decoder of Handle (src/protocol/request/handle.rs, `Handle::try_from`):
a `u32` id followed by a length-prefixed handle string. -/
def Handle.try_from (handle_bytes : List Byte) : Except Error Handle :=
  Except.bind (try_get_u32 handle_bytes) fun p1 =>
  Except.bind (try_get_string p1.2) fun p2 =>
  .ok ⟨p1.1, p2.1⟩

/-- SFTP Write request payload (src/request/write.rs). -/
structure Write where
  id : Nat
  handle : List Byte
  offset : Nat
  data : List Byte
deriving DecidableEq

/-- Decoder of Write (src/request/write.rs, `Write::try_from`): a `u32` id,
a length-prefixed handle, a `u64` offset, a `u32` data length and that many
data octets; any remaining octets are ignored. -/
def Write.try_from (item : List Byte) : Except Error Write :=
  Except.bind (try_get_u32 item) fun p1 =>
  Except.bind (try_get_string p1.2) fun p2 =>
  Except.bind (try_get_u64 p2.2) fun p3 =>
  Except.bind (try_get_u32 p3.2) fun p4 =>
  Except.bind (try_get_bytes p4.1 p4.2) fun p5 =>
  .ok ⟨p1.1, p2.1, p3.1, p5.1⟩

/-- SFTP Realpath request payload (src/request/realpath.rs): the struct
carries no fields. -/
structure Realpath where
deriving DecidableEq

/-- Decoder of Realpath (src/request/realpath.rs, `Realpath::try_from`):
rejects a buffer with fewer than one remaining octet with BadMessage and
otherwise succeeds, discarding the buffer contents. -/
def Realpath.try_from (item : List Byte) : Except Error Realpath :=
  if item.length < 1 then .error .badMessage else .ok ⟨⟩

/-- The associated function `Realpath::parse_bytes` in src/request/realpath.rs
unconditionally returns `Err(Error::Failure)`. -/
def Realpath.parse_bytes (_byte : List Byte) : Except Error Realpath :=
  .error .failure

/-- SFTP Status request payload (src/request/status.rs): no fields. -/
structure Status where
deriving DecidableEq

/-- Decoder of Status (src/request/status.rs, `Status::try_from`): same
shape as the Realpath decoder. -/
def Status.try_from (item : List Byte) : Except Error Status :=
  if item.length < 1 then .error .badMessage else .ok ⟨⟩

/-- SFTP Mkdir request payload (src/request/mkdir.rs): no fields. -/
structure Mkdir where
deriving DecidableEq

/-- Decoder of Mkdir (src/request/mkdir.rs, `Mkdir::try_from`): the stub
rejects every buffer with Unimplemented. -/
def Mkdir.try_from (_item : List Byte) : Except Error Mkdir :=
  .error .unimplemented

/-- SFTP Rmdir request payload (src/request/rmdir.rs): no fields. -/
structure Rmdir where
deriving DecidableEq

/-- Decoder of Rmdir (src/request/rmdir.rs, `Rmdir::try_from`): the stub
rejects every buffer with Unimplemented. -/
def Rmdir.try_from (_item : List Byte) : Except Error Rmdir :=
  .error .unimplemented

/-- SFTP Opendir request payload (src/request/opendir.rs): no fields. -/
structure Opendir where
deriving DecidableEq

/-- Decoder of Opendir (src/request/opendir.rs, `Opendir::try_from`): the
stub rejects every buffer with Unimplemented. -/
def Opendir.try_from (_item : List Byte) : Except Error Opendir :=
  .error .unimplemented

/-- SFTP Fsetstat request payload (src/request/fsetstat.rs): no fields. -/
structure Fsetstat where
deriving DecidableEq

/-- Decoder of Fsetstat (src/request/fsetstat.rs, `Fsetstat::try_from`): the
stub rejects every buffer with Unimplemented. -/
def Fsetstat.try_from (_item : List Byte) : Except Error Fsetstat :=
  .error .unimplemented

/-- The typed request union (spec section 3), restricted to the request
types whose decoders exist under src. -/
inductive Request where
  | init (x : Init)
  | handle (x : Handle)
  | write (x : Write)
  | realpath (x : Realpath)
  | status (x : Status)
  | mkdir (x : Mkdir)
  | rmdir (x : Rmdir)
  | opendir (x : Opendir)
  | fsetstat (x : Fsetstat)
deriving DecidableEq

/-- Modelled from the spec: src/protocol/request/mod.rs (the
`Request::try_from` opcode dispatcher called by lib.rs) is not under src.
Per spec sections 4.1 and 6 and the glossary, the leading octet is the
numeric opcode tag selecting the per-type decoder, the remaining octets are
that decoder's payload, and an opcode matching no known request type yields
Unimplemented; opcode numbers follow the protocol's defined numbering. -/
def Request.try_from (data : List Byte) : Except Error Request :=
  match data with
  | [] => .error .badMessage
  | op :: payload =>
    if op.val = 1 then Except.map Request.init (Init.try_from payload)
    else if op.val = 6 then Except.map Request.write (Write.try_from payload)
    else if op.val = 10 then Except.map Request.fsetstat (Fsetstat.try_from payload)
    else if op.val = 11 then Except.map Request.opendir (Opendir.try_from payload)
    else if op.val = 14 then Except.map Request.mkdir (Mkdir.try_from payload)
    else if op.val = 15 then Except.map Request.rmdir (Rmdir.try_from payload)
    else if op.val = 16 then Except.map Request.realpath (Realpath.try_from payload)
    else if op.val = 101 then Except.map Request.status (Status.try_from payload)
    else if op.val = 102 then Except.map Request.handle (Handle.try_from payload)
    else .error .unimplemented

/-- The octet with value `n % 256`. -/
def byteOf (n : Nat) : Byte :=
  ⟨n % 256, Nat.mod_lt _ (by decide)⟩

/-- Big-endian 4-octet encoding of a `u32` value. -/
def u32_bytes (n : Nat) : List Byte :=
  [byteOf (n / 2 ^ 24), byteOf (n / 2 ^ 16), byteOf (n / 2 ^ 8), byteOf n]

/-- Big-endian 8-octet encoding of a `u64` value. -/
def u64_bytes (n : Nat) : List Byte :=
  [byteOf (n / 2 ^ 56), byteOf (n / 2 ^ 48), byteOf (n / 2 ^ 40),
    byteOf (n / 2 ^ 32), byteOf (n / 2 ^ 24), byteOf (n / 2 ^ 16),
    byteOf (n / 2 ^ 8), byteOf n]

/-- Modelled from the spec: the repository contains no request encoder (only
clients encode requests; the tests under src build frames with `BufMut`).
Per spec sections 4.1 and 6: opcode tag, then the fields big-endian, strings
and byte blobs 4-octet length prefixed.  A fieldless struct contributes the
fields the decoder ignores as zero-length placeholders. -/
def Request.encode : Request → List Byte
  | .init i => byteOf 1 :: [i.version]
  | .write w => byteOf 6 :: (u32_bytes w.id ++ u32_bytes w.handle.length ++
      w.handle ++ u64_bytes w.offset ++ u32_bytes w.data.length ++ w.data)
  | .handle h => byteOf 102 :: (u32_bytes h.id ++ u32_bytes h.handle.length ++ h.handle)
  | .realpath _ => byteOf 16 :: (u32_bytes 0 ++ u32_bytes 0)
  | .status _ => byteOf 101 :: (u32_bytes 0 ++ u32_bytes 0)
  | .mkdir _ => byteOf 14 :: (u32_bytes 0 ++ u32_bytes 0)
  | .rmdir _ => byteOf 15 :: (u32_bytes 0 ++ u32_bytes 0)
  | .opendir _ => byteOf 11 :: (u32_bytes 0 ++ u32_bytes 0)
  | .fsetstat _ => byteOf 10 :: (u32_bytes 0 ++ u32_bytes 0)

/-- A request variant is supported when its decoder can succeed; the stubbed
decoders (Mkdir, Rmdir, Opendir, Fsetstat) reject every buffer. -/
def Request.supported : Request → Bool
  | .mkdir _ | .rmdir _ | .opendir _ | .fsetstat _ => false
  | _ => true

/-- Well-formedness of a request: the integer fields fit the machine widths
of the Rust structs (`u32` id and lengths, `u64` offset). -/
@[reducible] def Request.wf : Request → Prop
  | .write w => w.id < 2 ^ 32 ∧ w.handle.length < 2 ^ 32 ∧
      w.offset < 2 ^ 64 ∧ w.data.length < 2 ^ 32
  | .handle h => h.id < 2 ^ 32 ∧ h.handle.length < 2 ^ 32
  | _ => True

/-- Per-connection SFTP session state (src/sftp_session.rs is not under src;
spec section 3: a session owns the immutable authorized user identity). -/
structure SftpSession where
  user : String
deriving DecidableEq

/-- Responses sent back on the channel.  Modelled from the spec: the response
types and their encoders (src/protocol/response, src/sftp_session.rs) are not
under src; for the claims below only the identity of the response matters, so
a response is either the fixed invalid-request status or the session's answer
to a decoded request. -/
inductive Response where
  | invalidRequestStatus
  | handled (req : Request)
deriving DecidableEq

/-- Modelled from the spec: `SftpSession::handle_request` (src/sftp_session.rs)
is not under src.  Per spec section 7 every per-request error is converted
into a Status response, so handling a decoded request always produces exactly
one response; its contents are abstracted as `Response.handled`. -/
def SftpSession.handle_request (_s : SftpSession) (request : Request) : Response :=
  .handled request

/-- Modelled from the spec:
`SftpSession::build_invalid_request_message_response` (src/sftp_session.rs)
is not under src.  Per spec section 7, malformed wire input is answered with
a failure/illegal status response. -/
def SftpSession.build_invalid_request_message_response : Response :=
  .invalidRequestStatus

/-- The server state (src/lib.rs, struct DraySshServer): configuration, the
object-storage backend (modelled by the piece of its state the claims touch,
the per-user authorized key fingerprints), and the optional SFTP session.
The Rust field is `sftp_session: RwLock<Option<SftpSession>>`; the lock is
dropped since each handler owns its state here. -/
structure DraySshServer where
  dray_config : String
  object_storage : List (String × List String)
  sftp_session : Option SftpSession
deriving DecidableEq

/-- Modelled from the spec: the S3 implementation of
`ObjectStorage::get_authorized_keys_fingerprints` (src/storage/s3.rs) is not
under src.  The trait documentation in src/storage/mod.rs and spec section
4.3 require an empty list for a missing user instead of an error; lookup in
the modelled fingerprint table therefore defaults to the empty list and
never produces an error. -/
def ObjectStorage.get_authorized_keys_fingerprints
    (storage : List (String × List String)) (user : String) :
    Except String (List String) :=
  .ok ((storage.lookup user).getD [])

/-- Authentication outcomes (thrussh `Auth`). -/
inductive Auth where
  | accept
  | reject
deriving DecidableEq

/-- Public-key authentication (src/lib.rs, `DraySshServer::auth_publickey`):
fetch the user's authorized fingerprints, propagate a storage error,
otherwise accept exactly when the offered fingerprint is authorized, and on
acceptance install the SFTP session for the user. -/
def DraySshServer.auth_publickey (self : DraySshServer) (user : String)
    (public_key_fingerprint : String) : Except String (DraySshServer × Auth) :=
  match ObjectStorage.get_authorized_keys_fingerprints self.object_storage user with
  | .error e => .error e
  | .ok authorized_keys =>
      if authorized_keys.contains public_key_fingerprint then
        .ok ({ self with sftp_session := some ⟨user⟩ }, .accept)
      else
        .ok (self, .reject)

/-- The per-connection handler produced by the `Server` impl (src/lib.rs,
`Server::new`): configuration and storage are shared, the SFTP session
starts out as None. -/
def Server.new (self : DraySshServer) : DraySshServer :=
  { dray_config := self.dray_config
    object_storage := self.object_storage
    sftp_session := none }

/-- The typed data path (src/lib.rs, `DraySshServer::data`): with no SFTP
session installed the handler fails with the connection-level error
"Missing SFTP session!" and sends nothing; otherwise the session handles the
request and the response is written to the channel (modelled as the list of
responses sent). -/
def DraySshServer.data (self : DraySshServer) (request : Request) :
    Except String (DraySshServer × List Response) :=
  match self.sftp_session with
  | none => .error "Missing SFTP session!"
  | some s => .ok (self, [s.handle_request request])

/-- The raw data path (src/lib.rs, `Handler::data`): decode the frame; on
success delegate to the typed data path, on any decode error send the
invalid-request status response and finish successfully, keeping the
connection open. -/
def Handler.data (self : DraySshServer) (data : List Byte) :
    Except String (DraySshServer × List Response) :=
  match Request.try_from data with
  | .ok request => self.data request
  | .error _ => .ok (self, [SftpSession.build_invalid_request_message_response])

/-- Modelled from the spec: the Write handling of the session engine
(src/sftp_session.rs) is not under src.  Per spec sections 4.2 and 8 the
state of an open write stream is the cumulative number of octets already
written; a Write whose offset differs from it is answered with a failure
status and leaves the stream unchanged, a matching Write forwards the data
(advancing the cumulative count) and is answered with Status(OK). -/
structure WriteStreamHandle where
  cumulative_written : Nat
deriving DecidableEq

/-- Outcome of handling a Write request on an open write stream. -/
inductive WriteResponse where
  | statusOk
  | failureStatus
deriving DecidableEq

/-- Modelled from the spec: Write dispatch of the session engine
(src/sftp_session.rs is not under src); see `WriteStreamHandle`. -/
def handle_write (st : WriteStreamHandle) (w : Write) :
    WriteResponse × WriteStreamHandle :=
  if w.offset = st.cumulative_written then
    (.statusOk, ⟨st.cumulative_written + w.data.length⟩)
  else
    (.failureStatus, st)

/-! Helper lemmas about the byte-reading combinators. -/

theorem bind_ok_eq {α β : Type} (a : α) (f : α → Except Error β) :
    Except.bind (.ok a) f = f a := rfl

theorem except_bind_ok {α β : Type} {x : Except Error α} {f : α → Except Error β}
    {b : β} (h : Except.bind x f = .ok b) : ∃ a, x = .ok a ∧ f a = .ok b := by
  cases x with
  | ok a => exact ⟨a, rfl, h⟩
  | error e => simp [Except.bind] at h

theorem except_bind_error {α β : Type} {x : Except Error α} {f : α → Except Error β}
    {e : Error} (h : Except.bind x f = .error e) :
    x = .error e ∨ ∃ a, x = .ok a ∧ f a = .error e := by
  cases x with
  | ok a => exact Or.inr ⟨a, rfl, h⟩
  | error e2 =>
    left
    simp only [Except.bind, Except.error.injEq] at h
    rw [h]

theorem try_get_u8_ok {bs : List Byte} {v : Byte} {r : List Byte}
    (h : try_get_u8 bs = .ok (v, r)) : bs = v :: r := by
  cases bs <;> simp_all [try_get_u8]

theorem try_get_u8_err {bs : List Byte} {e : Error}
    (h : try_get_u8 bs = .error e) : e = .badMessage ∧ bs = [] := by
  cases bs <;> simp_all [try_get_u8]

theorem try_get_u32_ok {bs : List Byte} {v : Nat} {r : List Byte}
    (h : try_get_u32 bs = .ok (v, r)) : bs.length = r.length + 4 := by
  rcases bs with _ | ⟨b0, _ | ⟨b1, _ | ⟨b2, _ | ⟨b3, rest⟩⟩⟩⟩ <;>
    simp_all [try_get_u32]

theorem try_get_u32_err {bs : List Byte} {e : Error}
    (h : try_get_u32 bs = .error e) : e = .badMessage := by
  rcases bs with _ | ⟨b0, _ | ⟨b1, _ | ⟨b2, _ | ⟨b3, rest⟩⟩⟩⟩ <;>
    simp_all [try_get_u32]

theorem try_get_u32_append {bs : List Byte} {v : Nat} {r : List Byte}
    (h : try_get_u32 bs = .ok (v, r)) (ext : List Byte) :
    try_get_u32 (bs ++ ext) = .ok (v, r ++ ext) := by
  rcases bs with _ | ⟨b0, _ | ⟨b1, _ | ⟨b2, _ | ⟨b3, rest⟩⟩⟩⟩ <;>
    simp_all [try_get_u32]

theorem try_get_u64_ok {bs : List Byte} {v : Nat} {r : List Byte}
    (h : try_get_u64 bs = .ok (v, r)) : bs.length = r.length + 8 := by
  rcases bs with _ | ⟨b0, _ | ⟨b1, _ | ⟨b2, _ | ⟨b3, _ | ⟨b4, _ | ⟨b5, _ | ⟨b6, _ | ⟨b7, rest⟩⟩⟩⟩⟩⟩⟩⟩ <;>
    simp_all [try_get_u64]

theorem try_get_u64_err {bs : List Byte} {e : Error}
    (h : try_get_u64 bs = .error e) : e = .badMessage := by
  rcases bs with _ | ⟨b0, _ | ⟨b1, _ | ⟨b2, _ | ⟨b3, _ | ⟨b4, _ | ⟨b5, _ | ⟨b6, _ | ⟨b7, rest⟩⟩⟩⟩⟩⟩⟩⟩ <;>
    simp_all [try_get_u64]

theorem try_get_u64_append {bs : List Byte} {v : Nat} {r : List Byte}
    (h : try_get_u64 bs = .ok (v, r)) (ext : List Byte) :
    try_get_u64 (bs ++ ext) = .ok (v, r ++ ext) := by
  rcases bs with _ | ⟨b0, _ | ⟨b1, _ | ⟨b2, _ | ⟨b3, _ | ⟨b4, _ | ⟨b5, _ | ⟨b6, _ | ⟨b7, rest⟩⟩⟩⟩⟩⟩⟩⟩ <;>
    simp_all [try_get_u64]

theorem try_get_bytes_ok {n : Nat} {bs v r : List Byte}
    (h : try_get_bytes n bs = .ok (v, r)) :
    n ≤ bs.length ∧ v = bs.take n ∧ r = bs.drop n := by
  unfold try_get_bytes at h
  split at h
  · next hle => simp only [Except.ok.injEq, Prod.mk.injEq] at h
                exact ⟨hle, h.1.symm, h.2.symm⟩
  · simp at h

theorem try_get_bytes_ok_length {n : Nat} {bs v r : List Byte}
    (h : try_get_bytes n bs = .ok (v, r)) :
    bs.length = r.length + n ∧ v.length = n := by
  obtain ⟨hle, hv, hr⟩ := try_get_bytes_ok h
  subst hv hr
  simp [List.length_take, List.length_drop]
  omega

theorem try_get_bytes_err {n : Nat} {bs : List Byte} {e : Error}
    (h : try_get_bytes n bs = .error e) : e = .badMessage ∧ bs.length < n := by
  unfold try_get_bytes at h
  split at h
  · simp at h
  · next hgt => simp only [Except.error.injEq] at h
                exact ⟨h.symm, by omega⟩

theorem try_get_bytes_append {n : Nat} {bs v r : List Byte}
    (h : try_get_bytes n bs = .ok (v, r)) (ext : List Byte) :
    try_get_bytes n (bs ++ ext) = .ok (v, r ++ ext) := by
  obtain ⟨hle, hv, hr⟩ := try_get_bytes_ok h
  subst hv hr
  unfold try_get_bytes
  rw [if_pos (by simp; omega)]
  rw [List.take_append_of_le_length hle, List.drop_append_of_le_length hle]

theorem try_get_string_ok {bs s r : List Byte}
    (h : try_get_string bs = .ok (s, r)) : bs.length = r.length + 4 + s.length := by
  unfold try_get_string at h
  obtain ⟨⟨n, r1⟩, h1, h2⟩ := except_bind_ok h
  dsimp only at h2
  have l1 := try_get_u32_ok h1
  have l2 := try_get_bytes_ok_length h2
  omega

theorem try_get_string_err {bs : List Byte} {e : Error}
    (h : try_get_string bs = .error e) : e = .badMessage := by
  unfold try_get_string at h
  rcases except_bind_error h with h1 | ⟨⟨n, r1⟩, h1, h2⟩
  · exact try_get_u32_err h1
  · dsimp only at h2
    exact (try_get_bytes_err h2).1

theorem try_get_string_append {bs s r : List Byte}
    (h : try_get_string bs = .ok (s, r)) (ext : List Byte) :
    try_get_string (bs ++ ext) = .ok (s, r ++ ext) := by
  unfold try_get_string at h ⊢
  obtain ⟨⟨n, r1⟩, h1, h2⟩ := except_bind_ok h
  dsimp only at h2
  rw [try_get_u32_append h1 ext, bind_ok_eq]
  exact try_get_bytes_append h2 ext

/-! Helper lemmas about the big-endian encoders. -/

theorem u32val_decode (n : Nat) (h : n < 2 ^ 32) :
    u32val (byteOf (n / 2 ^ 24)) (byteOf (n / 2 ^ 16)) (byteOf (n / 2 ^ 8)) (byteOf n)
      = n := by
  simp only [u32val, byteOf]
  omega

theorem try_get_u32_encode (n : Nat) (h : n < 2 ^ 32) (rest : List Byte) :
    try_get_u32 (u32_bytes n ++ rest) = .ok (n, rest) := by
  have hshape : try_get_u32 (u32_bytes n ++ rest) =
      .ok (u32val (byteOf (n / 2 ^ 24)) (byteOf (n / 2 ^ 16)) (byteOf (n / 2 ^ 8))
        (byteOf n), rest) := rfl
  rw [hshape, u32val_decode n h]

theorem u64val_decode (n : Nat) (h : n < 2 ^ 64) :
    u64val (byteOf (n / 2 ^ 56)) (byteOf (n / 2 ^ 48)) (byteOf (n / 2 ^ 40))
      (byteOf (n / 2 ^ 32)) (byteOf (n / 2 ^ 24)) (byteOf (n / 2 ^ 16))
      (byteOf (n / 2 ^ 8)) (byteOf n) = n := by
  simp only [u64val, byteOf]
  omega

theorem try_get_u64_encode (n : Nat) (h : n < 2 ^ 64) (rest : List Byte) :
    try_get_u64 (u64_bytes n ++ rest) = .ok (n, rest) := by
  have hshape : try_get_u64 (u64_bytes n ++ rest) =
      .ok (u64val (byteOf (n / 2 ^ 56)) (byteOf (n / 2 ^ 48)) (byteOf (n / 2 ^ 40))
        (byteOf (n / 2 ^ 32)) (byteOf (n / 2 ^ 24)) (byteOf (n / 2 ^ 16))
        (byteOf (n / 2 ^ 8)) (byteOf n), rest) := rfl
  rw [hshape, u64val_decode n h]

theorem try_get_bytes_exact (s rest : List Byte) :
    try_get_bytes s.length (s ++ rest) = .ok (s, rest) := by
  unfold try_get_bytes
  rw [if_pos (by simp)]
  rw [List.take_append_of_le_length le_rfl, List.drop_append_of_le_length le_rfl]
  simp

theorem try_get_string_encode (s : List Byte) (h : s.length < 2 ^ 32) (rest : List Byte) :
    try_get_string (u32_bytes s.length ++ (s ++ rest)) = .ok (s, rest) := by
  unfold try_get_string
  rw [try_get_u32_encode s.length h (s ++ rest), bind_ok_eq]
  exact try_get_bytes_exact s rest

theorem try_get_string_encode_nil (s : List Byte) (h : s.length < 2 ^ 32) :
    try_get_string (u32_bytes s.length ++ s) = .ok (s, []) := by
  have hx := try_get_string_encode s h []
  rwa [List.append_nil] at hx

theorem try_get_bytes_exact_nil (s : List Byte) :
    try_get_bytes s.length s = .ok (s, []) := by
  have hx := try_get_bytes_exact s []
  rwa [List.append_nil] at hx

/-! Structural lemmas about the decoders under src. -/

theorem init_try_from_ok_length {bs : List Byte} {i : Init}
    (h : Init.try_from bs = .ok i) : 1 ≤ bs.length := by
  unfold Init.try_from at h
  obtain ⟨⟨v, r⟩, h1, h2⟩ := except_bind_ok h
  rw [try_get_u8_ok h1]
  simp

theorem init_try_from_err {bs : List Byte} {e : Error}
    (h : Init.try_from bs = .error e) : e = .badMessage := by
  unfold Init.try_from at h
  rcases except_bind_error h with h1 | ⟨⟨v, r⟩, h1, h2⟩
  · exact (try_get_u8_err h1).1
  · dsimp only at h2
    simp at h2

theorem handle_try_from_ok_length {bs : List Byte} {k : Handle}
    (h : Handle.try_from bs = .ok k) : 8 ≤ bs.length := by
  unfold Handle.try_from at h
  obtain ⟨⟨n, r1⟩, h1, h2⟩ := except_bind_ok h
  dsimp only at h2
  obtain ⟨⟨s, r2⟩, h3, h4⟩ := except_bind_ok h2
  have l1 := try_get_u32_ok h1
  have l2 := try_get_string_ok h3
  omega

theorem handle_try_from_err {bs : List Byte} {e : Error}
    (h : Handle.try_from bs = .error e) : e = .badMessage := by
  unfold Handle.try_from at h
  rcases except_bind_error h with h1 | ⟨⟨n, r1⟩, h1, h2⟩
  · exact try_get_u32_err h1
  · dsimp only at h2
    rcases except_bind_error h2 with h3 | ⟨⟨s, r2⟩, h3, h4⟩
    · exact try_get_string_err h3
    · dsimp only at h4
      simp at h4

theorem handle_decode_encode (k : Handle) (h1 : k.id < 2 ^ 32)
    (h2 : k.handle.length < 2 ^ 32) :
    Handle.try_from (u32_bytes k.id ++ u32_bytes k.handle.length ++ k.handle)
      = .ok k := by
  unfold Handle.try_from
  rw [List.append_assoc, try_get_u32_encode k.id h1, bind_ok_eq]
  dsimp only
  rw [try_get_string_encode_nil k.handle h2, bind_ok_eq]

theorem write_try_from_ok_length {bs : List Byte} {w : Write}
    (h : Write.try_from bs = .ok w) : 20 ≤ bs.length := by
  unfold Write.try_from at h
  obtain ⟨⟨n, r1⟩, h1, h⟩ := except_bind_ok h
  dsimp only at h
  obtain ⟨⟨s, r2⟩, h2, h⟩ := except_bind_ok h
  dsimp only at h
  obtain ⟨⟨off, r3⟩, h3, h⟩ := except_bind_ok h
  dsimp only at h
  obtain ⟨⟨dl, r4⟩, h4, h⟩ := except_bind_ok h
  dsimp only at h
  obtain ⟨⟨dat, r5⟩, h5, h⟩ := except_bind_ok h
  have l1 := try_get_u32_ok h1
  have l2 := try_get_string_ok h2
  have l3 := try_get_u64_ok h3
  have l4 := try_get_u32_ok h4
  have l5 := (try_get_bytes_ok_length h5).1
  omega

theorem write_try_from_err {bs : List Byte} {e : Error}
    (h : Write.try_from bs = .error e) : e = .badMessage := by
  unfold Write.try_from at h
  rcases except_bind_error h with h1 | ⟨⟨n, r1⟩, h1, h⟩
  · exact try_get_u32_err h1
  dsimp only at h
  rcases except_bind_error h with h2 | ⟨⟨s, r2⟩, h2, h⟩
  · exact try_get_string_err h2
  dsimp only at h
  rcases except_bind_error h with h3 | ⟨⟨off, r3⟩, h3, h⟩
  · exact try_get_u64_err h3
  dsimp only at h
  rcases except_bind_error h with h4 | ⟨⟨dl, r4⟩, h4, h⟩
  · exact try_get_u32_err h4
  dsimp only at h
  rcases except_bind_error h with h5 | ⟨⟨dat, r5⟩, h5, h⟩
  · exact (try_get_bytes_err h5).1
  dsimp only at h
  simp at h

theorem write_try_from_append {bs : List Byte} {w : Write}
    (h : Write.try_from bs = .ok w) (ext : List Byte) :
    Write.try_from (bs ++ ext) = .ok w := by
  unfold Write.try_from at h ⊢
  obtain ⟨⟨n, r1⟩, h1, h⟩ := except_bind_ok h
  dsimp only at h
  obtain ⟨⟨s, r2⟩, h2, h⟩ := except_bind_ok h
  dsimp only at h
  obtain ⟨⟨off, r3⟩, h3, h⟩ := except_bind_ok h
  dsimp only at h
  obtain ⟨⟨dl, r4⟩, h4, h⟩ := except_bind_ok h
  dsimp only at h
  obtain ⟨⟨dat, r5⟩, h5, h⟩ := except_bind_ok h
  dsimp only at h
  rw [try_get_u32_append h1 ext, bind_ok_eq]
  dsimp only
  rw [try_get_string_append h2 ext, bind_ok_eq]
  dsimp only
  rw [try_get_u64_append h3 ext, bind_ok_eq]
  dsimp only
  rw [try_get_u32_append h4 ext, bind_ok_eq]
  dsimp only
  rw [try_get_bytes_append h5 ext, bind_ok_eq]
  exact h

theorem write_decode_encode (w : Write) (h1 : w.id < 2 ^ 32)
    (h2 : w.handle.length < 2 ^ 32) (h3 : w.offset < 2 ^ 64)
    (h4 : w.data.length < 2 ^ 32) :
    Write.try_from (u32_bytes w.id ++ u32_bytes w.handle.length ++ w.handle ++
      u64_bytes w.offset ++ u32_bytes w.data.length ++ w.data) = .ok w := by
  unfold Write.try_from
  rw [show u32_bytes w.id ++ u32_bytes w.handle.length ++ w.handle ++
      u64_bytes w.offset ++ u32_bytes w.data.length ++ w.data =
      u32_bytes w.id ++ (u32_bytes w.handle.length ++ (w.handle ++
      (u64_bytes w.offset ++ (u32_bytes w.data.length ++ w.data)))) by simp]
  rw [try_get_u32_encode w.id h1, bind_ok_eq]
  dsimp only
  rw [try_get_string_encode w.handle h2, bind_ok_eq]
  dsimp only
  rw [try_get_u64_encode w.offset h3, bind_ok_eq]
  dsimp only
  rw [try_get_u32_encode w.data.length h4, bind_ok_eq]
  dsimp only
  rw [try_get_bytes_exact_nil w.data, bind_ok_eq]

/-! The claims. -/

/-- C1 (counterexample): the Mkdir decoder answers a buffer shorter than the
Mkdir frame's minimum length (an empty buffer) with Unimplemented, which is
not BadMessage, so not every request decoder yields BadMessage on a short
buffer. -/
theorem c1_counterexample :
    Mkdir.try_from [] = .error .unimplemented ∧
    Error.unimplemented ≠ Error.badMessage :=
  ⟨rfl, by decide⟩

/-- C1 (amended): every implemented decoder (Init, Handle, Write, Realpath,
Status) yields BadMessage on a buffer shorter than its minimum required
length (1, 8, 20, 1 and 1 octets respectively); a string/byte-blob field is
read via its 4-octet big-endian length prefix and rejected with BadMessage
when fewer bytes than the declared length remain; the decoders of the
unimplemented request types (Mkdir, Rmdir, Opendir, Fsetstat) reject every
buffer with Unimplemented instead.  Decoding is total and never substitutes
a default for a missing field. -/
theorem c1_short_buffer_bad_message :
    (∀ bs : List Byte, bs.length < 1 → Init.try_from bs = .error .badMessage) ∧
    (∀ bs : List Byte, bs.length < 8 → Handle.try_from bs = .error .badMessage) ∧
    (∀ bs : List Byte, bs.length < 20 → Write.try_from bs = .error .badMessage) ∧
    (∀ bs : List Byte, bs.length < 1 → Realpath.try_from bs = .error .badMessage) ∧
    (∀ bs : List Byte, bs.length < 1 → Status.try_from bs = .error .badMessage) ∧
    (∀ (b0 b1 b2 b3 : Byte) (rest : List Byte), rest.length < u32val b0 b1 b2 b3 →
      try_get_string (b0 :: b1 :: b2 :: b3 :: rest) = .error .badMessage) ∧
    (∀ bs : List Byte, Mkdir.try_from bs = .error .unimplemented ∧
      Rmdir.try_from bs = .error .unimplemented ∧
      Opendir.try_from bs = .error .unimplemented ∧
      Fsetstat.try_from bs = .error .unimplemented) := by
  refine ⟨?_, ?_, ?_, ?_, ?_, ?_, fun bs => ⟨rfl, rfl, rfl, rfl⟩⟩
  · intro bs h
    cases bs with
    | nil => rfl
    | cons b t => simp at h
  · intro bs h
    cases hres : Handle.try_from bs with
    | ok k => exact absurd (handle_try_from_ok_length hres) (by omega)
    | error e =>
      have he := handle_try_from_err hres
      subst he
      rfl
  · intro bs h
    cases hres : Write.try_from bs with
    | ok w => exact absurd (write_try_from_ok_length hres) (by omega)
    | error e =>
      have he := write_try_from_err hres
      subst he
      rfl
  · intro bs h
    unfold Realpath.try_from
    rw [if_pos h]
  · intro bs h
    unfold Status.try_from
    rw [if_pos h]
  · intro b0 b1 b2 b3 rest h
    unfold try_get_string
    rw [show try_get_u32 (b0 :: b1 :: b2 :: b3 :: rest) =
      .ok (u32val b0 b1 b2 b3, rest) from rfl, bind_ok_eq]
    dsimp only
    unfold try_get_bytes
    rw [if_neg (by omega)]

/-- C1 (witness): the amended theorem applied at concrete short buffers. -/
theorem c1_short_buffer_bad_message_witness :
    Init.try_from [] = .error .badMessage ∧
    Handle.try_from (List.replicate 7 (0 : Byte)) = .error .badMessage ∧
    Write.try_from (List.replicate 19 (0 : Byte)) = .error .badMessage ∧
    Realpath.try_from [] = .error .badMessage ∧
    Status.try_from [] = .error .badMessage ∧
    try_get_string [(0 : Byte), 0, 0, 1] = .error .badMessage ∧
    Mkdir.try_from [] = .error .unimplemented :=
  ⟨c1_short_buffer_bad_message.1 [] (by decide),
   c1_short_buffer_bad_message.2.1 _ (by decide),
   c1_short_buffer_bad_message.2.2.1 _ (by decide),
   c1_short_buffer_bad_message.2.2.2.1 [] (by decide),
   c1_short_buffer_bad_message.2.2.2.2.1 [] (by decide),
   c1_short_buffer_bad_message.2.2.2.2.2.1 0 0 0 1 [] (by decide),
   (c1_short_buffer_bad_message.2.2.2.2.2.2 []).1⟩

/-- C2: decoding the encoding of every supported, well-formed request yields
exactly that request (lossless round-trip of the request codec). -/
theorem c2_decode_encode_roundtrip (r : Request) (hs : r.supported = true)
    (hwf : Request.wf r) : Request.try_from (Request.encode r) = .ok r := by
  cases r with
  | init i => rfl
  | handle k =>
    obtain ⟨h1, h2⟩ := hwf
    rw [show Request.try_from (Request.encode (.handle k)) =
      Except.map Request.handle (Handle.try_from
        (u32_bytes k.id ++ u32_bytes k.handle.length ++ k.handle)) from rfl]
    rw [handle_decode_encode k h1 h2]
    rfl
  | write w =>
    obtain ⟨h1, h2, h3, h4⟩ := hwf
    rw [show Request.try_from (Request.encode (.write w)) =
      Except.map Request.write (Write.try_from
        (u32_bytes w.id ++ u32_bytes w.handle.length ++ w.handle ++
          u64_bytes w.offset ++ u32_bytes w.data.length ++ w.data)) from rfl]
    rw [write_decode_encode w h1 h2 h3 h4]
    rfl
  | realpath x => rfl
  | status x => rfl
  | mkdir x => exact Bool.noConfusion hs
  | rmdir x => exact Bool.noConfusion hs
  | opendir x => exact Bool.noConfusion hs
  | fsetstat x => exact Bool.noConfusion hs

/-- C2 (witness): the round-trip theorem applied to a concrete Write
request. -/
theorem c2_decode_encode_roundtrip_witness :
    Request.try_from (Request.encode
      (.write ⟨1, [byteOf 104], 2, [byteOf 65, byteOf 66]⟩)) =
      .ok (.write ⟨1, [byteOf 104], 2, [byteOf 65, byteOf 66]⟩) :=
  c2_decode_encode_roundtrip _ rfl (by exact ⟨by decide, by decide, by decide, by decide⟩)

/-- C3 (counterexample): a well-formed Mkdir frame (id 1, path "a") is
rejected by the Mkdir decoder with Unimplemented, both directly and through
the opcode dispatcher, so the engine never performs a storage call for it
and never answers Status(OK). -/
theorem c3_counterexample :
    Mkdir.try_from (u32_bytes 1 ++ u32_bytes 1 ++ [byteOf 97]) =
      .error .unimplemented ∧
    Request.try_from (byteOf 14 :: (u32_bytes 1 ++ u32_bytes 1 ++ [byteOf 97])) =
      .error .unimplemented :=
  ⟨rfl, by decide⟩

/-- C3 (amended): the Mkdir and Rmdir decoders reject every buffer with
Unimplemented, so no Mkdir or Rmdir request ever reaches the session engine
or storage (the Remove and Rename decoders do not exist in the codebase at
all). -/
theorem c3_mkdir_rmdir_unimplemented :
    ∀ bs : List Byte, Mkdir.try_from bs = .error .unimplemented ∧
      Rmdir.try_from bs = .error .unimplemented :=
  fun _ => ⟨rfl, rfl⟩

/-- C4 (counterexample): a Realpath frame carrying an empty path (id 1,
4-octet length prefix 0) is accepted by the Realpath decoder, and so is the
single octet 0, which is not even a well-formed message; the supplied path
is never validated. -/
theorem c4_counterexample :
    Realpath.try_from (u32_bytes 1 ++ u32_bytes 0) = .ok ⟨⟩ ∧
    Realpath.try_from [(0 : Byte)] = .ok ⟨⟩ := by
  decide

/-- C4 (amended): the Realpath decoder rejects only the empty buffer (with
BadMessage); it accepts any buffer with at least one octet without
validating the path, discarding it entirely, and the associated
`Realpath::parse_bytes` unconditionally fails with Failure, so no Name
response with a resolved entry is produced from the decoded path. -/
theorem c4_realpath_no_validation :
    (∀ bs : List Byte, 1 ≤ bs.length → Realpath.try_from bs = .ok ⟨⟩) ∧
    Realpath.try_from [] = .error .badMessage ∧
    (∀ bs : List Byte, Realpath.parse_bytes bs = .error .failure) := by
  refine ⟨fun bs h => ?_, rfl, fun bs => rfl⟩
  unfold Realpath.try_from
  rw [if_neg (by omega)]

/-- C4 (witness): the amended theorem applied at the one-octet buffer. -/
theorem c4_realpath_no_validation_witness :
    Realpath.try_from [(0 : Byte)] = .ok ⟨⟩ :=
  c4_realpath_no_validation.1 [(0 : Byte)] (by decide)

/-- C5: a Write whose offset differs from the cumulative bytes already
written through the handle is answered with a Failure status and leaves the
stream unchanged; a Write whose offset equals the cumulative written length
is forwarded (advancing the cumulative count by the data length) and
answered with Status(OK). -/
theorem c5_write_offset_discipline (st : WriteStreamHandle) (w : Write) :
    (w.offset ≠ st.cumulative_written →
      handle_write st w = (.failureStatus, st)) ∧
    (w.offset = st.cumulative_written →
      handle_write st w = (.statusOk, ⟨st.cumulative_written + w.data.length⟩)) := by
  constructor
  · intro h
    unfold handle_write
    rw [if_neg h]
  · intro h
    unfold handle_write
    rw [if_pos h]

/-- C5 (witness): both branches of the offset check at concrete inputs. -/
theorem c5_write_offset_discipline_witness :
    handle_write ⟨5⟩ ⟨1, [], 7, [byteOf 65]⟩ = (.failureStatus, ⟨5⟩) ∧
    handle_write ⟨5⟩ ⟨1, [], 5, [byteOf 65]⟩ = (.statusOk, ⟨6⟩) :=
  ⟨(c5_write_offset_discipline ⟨5⟩ ⟨1, [], 7, [byteOf 65]⟩).1 (by decide),
   (c5_write_offset_discipline ⟨5⟩ ⟨1, [], 5, [byteOf 65]⟩).2 rfl⟩

/-- C6: fetching authorized key fingerprints always succeeds, for every user
string, and a user absent from the fingerprint table receives the empty
list, so unknown users are indistinguishable from keyless ones by error
behaviour. -/
theorem c6_fingerprints_never_error :
    (∀ (storage : List (String × List String)) (user : String),
      ∃ keys, ObjectStorage.get_authorized_keys_fingerprints storage user =
        .ok keys) ∧
    (∀ (storage : List (String × List String)) (user : String),
      storage.lookup user = none →
      ObjectStorage.get_authorized_keys_fingerprints storage user = .ok []) := by
  constructor
  · intro s u
    exact ⟨_, rfl⟩
  · intro s u h
    unfold ObjectStorage.get_authorized_keys_fingerprints
    rw [h]
    rfl

/-- C6 (witness): an unknown user gets the empty fingerprint list. -/
theorem c6_fingerprints_never_error_witness :
    ObjectStorage.get_authorized_keys_fingerprints [("alice", ["fp1"])] "bob" =
      .ok [] :=
  c6_fingerprints_never_error.2 [("alice", ["fp1"])] "bob" (by decide)

/-- C7: a data frame whose bytes fail to decode as any request is answered
with the invalid-request status response on the same channel, and the
handler returns successfully, keeping the connection open. -/
theorem c7_bad_message_keeps_connection_open (self : DraySshServer)
    (frame : List Byte) (e : Error) (h : Request.try_from frame = .error e) :
    Handler.data self frame =
      .ok (self, [SftpSession.build_invalid_request_message_response]) := by
  unfold Handler.data
  rw [h]

/-- C7 (witness): the empty frame fails to decode and the handler responds
with the invalid-request status and stays open. -/
theorem c7_bad_message_keeps_connection_open_witness :
    Handler.data ⟨"host", [], none⟩ [] =
      .ok (⟨"host", [], none⟩, [SftpSession.build_invalid_request_message_response]) :=
  c7_bad_message_keeps_connection_open ⟨"host", [], none⟩ [] .badMessage rfl

/-- C8: the Init decoder succeeds on every buffer with at least one octet,
taking the version from the first octet only and ignoring every following
octet; the version field is a single octet, so values above 255 are
unrepresentable by construction. -/
theorem c8_init_first_byte :
    ∀ (b : Byte) (rest : List Byte), Init.try_from (b :: rest) = .ok ⟨b⟩ :=
  fun _ _ => rfl

/-- C9: the Write decoder does not require the buffer to be exactly
consumed: appending arbitrary trailing bytes to a frame that decodes
successfully still decodes successfully to the same Write value. -/
theorem c9_write_trailing_bytes (frame : List Byte) (w : Write)
    (ext : List Byte) (h : Write.try_from frame = .ok w) :
    Write.try_from (frame ++ ext) = .ok w :=
  write_try_from_append h ext

/-- C9 (witness): a concrete Write frame with two trailing junk bytes
decodes to the same value as without them. -/
theorem c9_write_trailing_bytes_witness :
    Write.try_from ((u32_bytes 1 ++ u32_bytes 1 ++ [byteOf 104] ++
      u64_bytes 0 ++ u32_bytes 1 ++ [byteOf 65]) ++ [byteOf 9, byteOf 9]) =
      .ok ⟨1, [byteOf 104], 0, [byteOf 65]⟩ :=
  c9_write_trailing_bytes _ _ _ (by decide)

/-- C10: a freshly created per-connection handler starts with no SFTP
session, and a successfully decoded request arriving while no session is
installed makes the typed data handler fail with the connection-level error
"Missing SFTP session!", producing no response. -/
theorem c10_missing_sftp_session :
    (∀ self : DraySshServer, (Server.new self).sftp_session = none) ∧
    (∀ (self : DraySshServer) (request : Request), self.sftp_session = none →
      DraySshServer.data self request = .error "Missing SFTP session!") := by
  refine ⟨fun self => rfl, fun self request h => ?_⟩
  unfold DraySshServer.data
  rw [h]

/-- C10 (witness): the two conjuncts at concrete states. -/
theorem c10_missing_sftp_session_witness :
    (Server.new ⟨"host", [], some ⟨"alice"⟩⟩).sftp_session = none ∧
    DraySshServer.data ⟨"host", [], none⟩ (.realpath ⟨⟩) =
      .error "Missing SFTP session!" :=
  ⟨c10_missing_sftp_session.1 ⟨"host", [], some ⟨"alice"⟩⟩,
   c10_missing_sftp_session.2 ⟨"host", [], none⟩ (.realpath ⟨⟩) rfl⟩

end Dray
